import Mathlib

/-!
Verification of two PennyLane utility modules:
`pennylane/templates/embeddings/angle.py` (the `AngleEmbedding` template and its
helper `_broadcast_no_shape_check`) and `pennylane/collections/sum.py`
(`_get_sum_func` and `sum`).

The embedding mirrors the Python source. Python exceptions become an explicit
error type; a code path that queues quantum operations returns the list of
operations queued so far together with the exception raised, if any. Feature
values are rationals, wire labels are naturals. Helper routines of the wider
library that the two modules call but whose source is not part of this
repository snapshot (`check_shape`, `check_type`, `check_is_in_options`,
`get_shape`, `broadcast`, `apply`, `Wires`) are modelled from the spec, as
marked in their doc comments.
-/

namespace Pennylane

/-- The kinds of Python exception that appear in these two modules.
`valueError` covers both the ShapeError and the InvalidOptionError of the
spec (both are raised as `ValueError` with a message); `otherError` stands
for any exception of a type other than the ones named. -/
inductive Err where
  | valueError (msg : String)
  | typeError (msg : String)
  | attributeError (msg : String)
  | otherError (msg : String)
  deriving DecidableEq, Repr

/-- The three single-qubit rotation gate families `RX`, `RY`, `RZ`
(from `pennylane.ops`). -/
inductive Rot where
  | RX
  | RY
  | RZ
  deriving DecidableEq, Repr

/-- One queued rotation operation: a gate family, an angle parameter and the
wire it acts on. -/
structure Op where
  gate : Rot
  angle : ℚ
  wire : ℕ
  deriving DecidableEq, Repr

/-- The `rotation` argument of `AngleEmbedding` as a Python value: either a
string, or a non-string value carrying its textual form (used when it is
interpolated into an error message). -/
inductive RotArg where
  | str (s : String)
  | nonStr (txt : String)
  deriving DecidableEq, Repr

/-- `str(rotation)` as used inside error messages. -/
def RotArg.toText : RotArg → String
  | .str s => s
  | .nonStr t => t

/-- Python substring containment `pat in s` on character lists. -/
def charsContain (pat : List Char) : List Char → Bool
  | [] => pat.isPrefixOf []
  | c :: cs => pat.isPrefixOf (c :: cs) || charsContain pat cs

/-- Python substring containment `pat in s` on strings. -/
def strContains (pat s : String) : Bool :=
  charsContain pat.data s.data

/-- Render a Python 1-tuple `(n,)` the way `str.format` does. -/
def shapeText (n : ℕ) : String :=
  "(" ++ toString n ++ ",)"

/-- Modelled from the spec: `get_shape` from `pennylane.templates.utils`
(not part of this repository snapshot), restricted to the 1-D numeric
sequences used by `AngleEmbedding`: the shape of a length-`m` vector is the
1-tuple `(m,)`, which we represent by `m`. -/
def get_shape (features : List ℚ) : ℕ :=
  features.length

/-- Modelled from the spec: `check_shape` with `bound="max"` from
`pennylane.templates.utils` (not part of this repository snapshot). The
spec: the features "must be representable as a 1-D numeric sequence of
length ≤ |wires|; otherwise fails with a ShapeError stating the expected
bound and the actual shape". The ShapeError is a `ValueError` carrying the
message built by the caller. Returns the exception raised, if any. -/
def check_shape (features : List ℚ) (target : ℕ) (msg : String) : Option Err :=
  if get_shape features > target then some (.valueError msg) else none

/-- Modelled from the spec: `check_type` from `pennylane.templates.utils`
(not part of this repository snapshot), at the list of types `[str]` it is
called with here. The spec: the rotation axis "must be a string-like value;
otherwise fails with a TypeError". -/
def check_type (rotation : RotArg) (msg : String) : Option Err :=
  match rotation with
  | .str _ => none
  | .nonStr _ => some (.typeError msg)

/-- Modelled from the spec: `check_is_in_options` from
`pennylane.templates.utils` (not part of this repository snapshot). The
spec: the rotation axis "must be one of {X, Y, Z}; otherwise fails with an
InvalidOptionError" — raised as a `ValueError` with the caller's message. -/
def check_is_in_options (rotation : RotArg) (options : List String) (msg : String) :
    Option Err :=
  match rotation with
  | .str s => if s ∈ options then none else some (.valueError msg)
  | .nonStr _ => some (.valueError msg)

/-- Modelled from the spec: the `broadcast` primitive from
`pennylane.templates` (not part of this repository snapshot), at the
pattern `"single"` used by `AngleEmbedding`. Per the spec it applies the
unitary "pairwise across `features` and the first `len(features)` entries
of `wires`, in order", and it performs "a stricter length-match check":
when the parameter count differs from the wire count it raises
`ValueError("'parameters' must contain entries for {n} unitaries; got {m}
entries")`. The result is the list of operations queued together with the
exception raised, if any. -/
def broadcast (unitary : Rot) (wires : List ℕ) (parameters : List ℚ) :
    List Op × Option Err :=
  let ops := List.zipWith (fun p w => Op.mk unitary p w) parameters wires
  if parameters.length = wires.length then
    (ops, none)
  else
    (ops, some (.valueError ("\x27parameters\x27 must contain entries for " ++
      toString wires.length ++ " unitaries; got " ++
      toString parameters.length ++ " entries")))

/-- The `try ... except ValueError as e` block of
`_broadcast_no_shape_check` (angle.py lines 97-105), applied to the outcome
of the `broadcast` call: a `ValueError` whose message contains
`"must contain entries for {len(wires)} unitaries"` is swallowed; any other
exception is re-raised unchanged. -/
def handle_broadcast_error (wires : List ℕ) :
    List Op × Option Err → List Op × Option Err
  | (ops, some (.valueError e)) =>
      if strContains ("must contain entries for " ++ toString wires.length ++
          " unitaries") e then
        (ops, none)
      else
        (ops, some (.valueError e))
  | r => r

/-- `_broadcast_no_shape_check` (angle.py lines 89-105), at the pattern
`"single"` it is always called with: calls `broadcast` and filters the
exception through the `except ValueError` handler. -/
def broadcast_no_shape_check (unitary : Rot) (wires : List ℕ)
    (parameters : List ℚ) : List Op × Option Err :=
  handle_broadcast_error wires (broadcast unitary wires parameters)

/-- `AngleEmbedding(features, wires, rotation)` (angle.py lines 30-87).
Wire labels arrive already normalized (the `Wires` constructor, not part of
this repository snapshot, canonicalizes an iterable of unique labels and is
the identity on such a list). The three input checks run in source order,
each aborting the call before any operation is queued; then the rotation
string is dispatched to `_broadcast_no_shape_check` with `RX`/`RY`/`RZ`. -/
def AngleEmbedding (features : List ℚ) (wires : List ℕ) (rotation : RotArg) :
    List Op × Option Err :=
  match check_shape features wires.length
      ("\x27features\x27 must be of shape " ++ shapeText wires.length ++
        " or smaller; got " ++ shapeText (get_shape features) ++ ".") with
  | some e => ([], some e)
  | none =>
    match check_type rotation
        ("\x27rotation\x27 must be a string; got " ++ rotation.toText) with
    | some e => ([], some e)
    | none =>
      match check_is_in_options rotation ["X", "Y", "Z"]
          ("did not recognize option " ++ rotation.toText ++
            " for \x27rotation\x27.") with
      | some e => ([], some e)
      | none =>
        if rotation = .str "X" then
          broadcast_no_shape_check .RX wires features
        else if rotation = .str "Y" then
          broadcast_no_shape_check .RY wires features
        else if rotation = .str "Z" then
          broadcast_no_shape_check .RZ wires features
        else
          ([], none)

/-- `AngleEmbedding(features, wires)` with the `rotation` argument left at
its default `"X"` (angle.py line 31). -/
def AngleEmbeddingDefault (features : List ℚ) (wires : List ℕ) :
    List Op × Option Err :=
  AngleEmbedding features wires (.str "X")

/-- The `interface` value of a QNode collection as sum.py reads it: either a
Python string tag or Python `None`. -/
inductive Interface where
  | tag (s : String)
  | pyNone
  deriving DecidableEq, Repr

/-- `str(interface)` as interpolated into the "Unknown interface" message. -/
def Interface.toText : Interface → String
  | .tag s => s
  | .pyNone => "None"

/-- The summation primitives `_get_sum_func` can return, one per backend:
`tf.reduce_sum`, `torch.sum`, `autograd.numpy.sum` and plain `numpy.sum`.
The backends themselves are external libraries; the primitives are kept
symbolic and all share the evaluation behavior `SumFn.eval`. -/
inductive SumFn where
  | tfReduceSum
  | torchSum
  | autogradNpSum
  | npSum
  deriving DecidableEq, Repr

/-- Modelled from the spec: the behavior shared by every backend's
summation primitive (the external `tf.reduce_sum`, `torch.sum`,
`autograd.numpy.sum`, `numpy.sum` are not part of this repository
snapshot): each reduces a sequence of numeric results by summation. -/
def SumFn.eval : SumFn → List ℚ → ℚ
  | _, results => results.sum

/-- `_get_sum_func(interface)` (sum.py lines 22-53): the if-chain that maps
an interface tag to its backend's summation primitive, raising
`ValueError("Unknown interface {interface}")` on an unrecognized tag. -/
def _get_sum_func (interface : Interface) : Except Err SumFn :=
  if interface = .tag "tf" then
    .ok .tfReduceSum
  else if interface = .tag "torch" then
    .ok .torchSum
  else if interface = .tag "autograd" ∨ interface = .tag "numpy" then
    .ok .autogradNpSum
  else if interface = .pyNone then
    .ok .npSum
  else
    .error (.valueError ("Unknown interface " ++ interface.toText))

/-- An observable event in the trace of a call: the evaluation of one
computation unit (one QNode of the collection, identified by its position)
at the given parameters. -/
inductive Event where
  | evalUnit (idx : ℕ) (params : List ℚ)
  deriving DecidableEq, Repr

/-- A `QNodeCollection` as sum.py uses it: the `interface` attribute
(`none` when the object has no such attribute at all) and the ordered
sequence of computation units, each mapping shared input parameters to one
numeric result. -/
structure QNodeCollection where
  interfaceAttr : Option Interface
  qnodes : List (List ℚ → ℚ)

/-- Calling the collection itself, `x(params)`: evaluates every unit, in
order, at the shared parameters, returning the per-unit results and the
trace of unit evaluations this causes. -/
def QNodeCollection.evalAll (x : QNodeCollection) (params : List ℚ) :
    List ℚ × List Event :=
  (x.qnodes.map (fun q => q params),
   (List.range x.qnodes.length).map (fun i => Event.evalUnit i params))

/-- Modelled from the spec: `apply` from `pennylane.collections.apply`
(not part of this repository snapshot). Per the spec it "returns a function
of one argument (the shared input parameters) that, when called, evaluates
each computation unit in the collection with those parameters (producing
one numeric result per unit, order preserved) and applies the resolved
reducer to the resulting sequence". Building the closure evaluates no unit,
so `apply` itself contributes an empty trace; each call of the closure
returns its result together with the trace of unit evaluations it causes. -/
def apply (fn : SumFn) (x : QNodeCollection) :
    (List ℚ → ℚ × List Event) × List Event :=
  ((fun params =>
      let r := x.evalAll params
      (fn.eval r.1, r.2)),
   [])

/-- `sum(x)` (sum.py lines 56-85), written `sumColl` since `sum` shadows a
builtin. The body computes `getattr(x, "interface", None)` into a local
that is never read again, then accesses `x.interface` directly — raising
`AttributeError` when the attribute is absent — resolves the reducer with
`_get_sum_func`, and returns `apply(sum_fn, x)`. The second component is
the trace of unit evaluations performed during this construction. -/
def sumColl (x : QNodeCollection) :
    Except Err ((List ℚ → ℚ × List Event) × List Event) × List Event :=
  let _interface := x.interfaceAttr.getD .pyNone
  match x.interfaceAttr with
  | none =>
      (.error (.attributeError
        "\x27QNodeCollection\x27 object has no attribute \x27interface\x27"), [])
  | some i =>
      match _get_sum_func i with
      | .error e => (.error e, [])
      | .ok fn => (.ok (apply fn x), [])

/-- Which rotation gate family `AngleEmbedding` dispatches a given rotation
string to (angle.py lines 80-87): `"X" ↦ RX`, `"Y" ↦ RY`, `"Z" ↦ RZ`, and
no gate for any other string. -/
def axisGate (s : String) : Option Rot :=
  if s = "X" then some .RX
  else if s = "Y" then some .RY
  else if s = "Z" then some .RZ
  else none

lemma isPrefixOf_append_self (l t : List Char) : l.isPrefixOf (l ++ t) = true := by
  induction l with
  | nil => simp [List.isPrefixOf]
  | cons c cs ih => simp [List.isPrefixOf, ih]

lemma charsContain_of_isPrefixOf {p s : List Char} (h : p.isPrefixOf s = true) :
    charsContain p s = true := by
  cases s with
  | nil => simpa [charsContain] using h
  | cons c cs => simp [charsContain, h]

lemma charsContain_append_left (p : List Char) (pre : List Char) {s : List Char}
    (h : charsContain p s = true) : charsContain p (pre ++ s) = true := by
  induction pre with
  | nil => simpa using h
  | cons c cs ih => simp [charsContain, ih]

/-- The error message raised by the modelled `broadcast` always contains the
substring that `_broadcast_no_shape_check` looks for. -/
lemma strContains_entries_msg (n m : String) :
    strContains ("must contain entries for " ++ n ++ " unitaries")
      ("\x27parameters\x27 must contain entries for " ++ n ++
        " unitaries; got " ++ m ++ " entries") = true := by
  have hdata :
      ("\x27parameters\x27 must contain entries for " ++ n ++
        " unitaries; got " ++ m ++ " entries").data
      = ("\x27parameters\x27 " : String).data ++
        (("must contain entries for " ++ n ++ " unitaries").data ++
          (("; got " : String).data ++ (m.data ++ (" entries" : String).data))) := by
    simp only [String.data_append]
    simp [List.append_assoc]
  unfold strContains
  rw [hdata]
  exact charsContain_append_left _ _
    (charsContain_of_isPrefixOf (isPrefixOf_append_self _ _))

/-- In the modelled semantics `_broadcast_no_shape_check` never fails: with
matching lengths `broadcast` succeeds, and with mismatched lengths its
count-mismatch `ValueError` is always swallowed by the handler. Either way
the queued operations are the pairwise `zipWith` of parameters and wires. -/
lemma broadcast_no_shape_check_eq (u : Rot) (w : List ℕ) (p : List ℚ) :
    broadcast_no_shape_check u w p
      = (List.zipWith (fun x wi => Op.mk u x wi) p w, none) := by
  by_cases h : p.length = w.length
  · simp [broadcast_no_shape_check, broadcast, handle_broadcast_error, h]
  · simp [broadcast_no_shape_check, broadcast, handle_broadcast_error, h,
      strContains_entries_msg]

lemma zipWith_take_right {α β γ : Type} (f : α → β → γ) :
    ∀ (l : List α) (l2 : List β),
      List.zipWith f l l2 = List.zipWith f l (l2.take l.length)
  | [], _ => rfl
  | _ :: _, [] => rfl
  | a :: as, b :: bs => by
      simpa [List.zipWith] using zipWith_take_right f as bs

lemma gate_of_mem_zipWith {g : Rot} {op : Op} :
    ∀ {p : List ℚ} {w : List ℕ},
      op ∈ List.zipWith (fun x wi => Op.mk g x wi) p w → op.gate = g := by
  intro p
  induction p with
  | nil => intro w h; simp at h
  | cons a as ih =>
      intro w h
      cases w with
      | nil => simp at h
      | cons b bs =>
          rcases List.mem_cons.mp h with h | h
          · subst h; rfl
          · exact ih h

lemma wire_of_mem_zipWith {g : Rot} {op : Op} :
    ∀ {p : List ℚ} {w : List ℕ},
      op ∈ List.zipWith (fun x wi => Op.mk g x wi) p w →
      op.wire ∈ w.take p.length := by
  intro p
  induction p with
  | nil => intro w h; simp at h
  | cons a as ih =>
      intro w h
      cases w with
      | nil => simp at h
      | cons b bs =>
          rcases List.mem_cons.mp h with h | h
          · subst h; simp
          · simpa using Or.inr (ih h)

/-- The resolution of `axisGate` implies the string is one of the three
options and fixes the gate. -/
lemma axisGate_cases {s : String} {g : Rot} (hg : axisGate s = some g) :
    s = "X" ∧ g = .RX ∨ s = "Y" ∧ g = .RY ∨ s = "Z" ∧ g = .RZ := by
  by_cases h1 : s = "X"
  · simp [axisGate, h1] at hg
    exact Or.inl ⟨h1, hg.symm⟩
  · by_cases h2 : s = "Y"
    · simp [axisGate, h1, h2] at hg
      exact Or.inr (Or.inl ⟨h2, hg.symm⟩)
    · by_cases h3 : s = "Z"
      · simp [axisGate, h1, h2, h3] at hg
        exact Or.inr (Or.inr ⟨h3, hg.symm⟩)
      · simp [axisGate, h1, h2, h3] at hg

/-- Successful run of `AngleEmbedding`: when the features are no longer
than the wires and the rotation string is one of the three options, all
checks pass and the result is the pairwise `zipWith`, with no error. -/
lemma AngleEmbedding_ok {f : List ℚ} {w : List ℕ} {s : String} {g : Rot}
    (hg : axisGate s = some g) (hlen : f.length ≤ w.length) :
    AngleEmbedding f w (.str s)
      = (List.zipWith (fun x wi => Op.mk g x wi) f w, none) := by
  have hno : ¬ get_shape f > w.length := by
    simpa [get_shape] using Nat.not_lt.mpr hlen
  rcases axisGate_cases hg with ⟨hs, hgs⟩ | ⟨hs, hgs⟩ | ⟨hs, hgs⟩ <;>
    subst hs <;> subst hgs <;>
    simp [AngleEmbedding, check_shape, check_type, check_is_in_options, hno,
      broadcast_no_shape_check_eq]

/-- A failed shape check aborts `AngleEmbedding` with the ShapeError and no
queued operation, whatever the rotation argument. -/
lemma AngleEmbedding_shape_err (f : List ℚ) (w : List ℕ) (r : RotArg)
    (h : f.length > w.length) :
    AngleEmbedding f w r
      = ([], some (.valueError ("\x27features\x27 must be of shape " ++
          shapeText w.length ++ " or smaller; got " ++
          shapeText (get_shape f) ++ "."))) := by
  simp [AngleEmbedding, check_shape, get_shape, h]

/-- A sample collection used to instantiate the laziness theorem: two
computation units bound to the plain-numpy interface. -/
def sampleCollection : QNodeCollection :=
  ⟨some .pyNone, [fun _ => 1, fun p => p.sum]⟩

/-- C1: for every feature vector shorter than the wire sequence and a valid
rotation axis, `AngleEmbedding` raises nothing and queues exactly
`len(features)` rotation operations, paired in order with the first
`len(features)` wires, and no operation touches any of the remaining
wires. -/
theorem angleEmbedding_fewer_features (f : List ℚ) (w : List ℕ) (s : String)
    (g : Rot) (hg : axisGate s = some g) (hlen : f.length < w.length)
    (hnodup : w.Nodup) :
    (AngleEmbedding f w (.str s)).2 = none ∧
    (AngleEmbedding f w (.str s)).1
      = List.zipWith (fun x wi => Op.mk g x wi) f (w.take f.length) ∧
    (AngleEmbedding f w (.str s)).1.length = f.length ∧
    ∀ wi ∈ w.drop f.length, ∀ op ∈ (AngleEmbedding f w (.str s)).1,
      op.wire ≠ wi := by
  have hle := le_of_lt hlen
  have heq := AngleEmbedding_ok hg hle
  refine ⟨by rw [heq], by rw [heq]; exact zipWith_take_right _ f w,
    by rw [heq]; simp [Nat.min_eq_left hle], ?_⟩
  intro wi hwi op hop
  rw [heq] at hop
  have hw : op.wire ∈ w.take f.length := wire_of_mem_zipWith hop
  have hd : (w.take f.length).Disjoint (w.drop f.length) := by
    have hn := hnodup
    rw [← List.take_append_drop f.length w] at hn
    exact (List.nodup_append.mp hn).2.2
  exact fun hEq => hd hw (hEq ▸ hwi)

theorem angleEmbedding_fewer_features_witness :
    (AngleEmbedding [1/2] [0, 1] (.str "X")).2 = none :=
  (angleEmbedding_fewer_features [1/2] [0, 1] "X" .RX rfl (by decide)
    (by decide)).1

/-- C2: whenever there are more features than wires, `AngleEmbedding`
fails, before queueing any operation, with the ShapeError: a `ValueError`
whose message states the expected maximal shape `(len(wires),)` and the
actual shape of the features. -/
theorem angleEmbedding_too_many_features (f : List ℚ) (w : List ℕ)
    (r : RotArg) (h : f.length > w.length) :
    AngleEmbedding f w r
      = ([], some (.valueError ("\x27features\x27 must be of shape " ++
          shapeText w.length ++ " or smaller; got " ++
          shapeText f.length ++ "."))) :=
  AngleEmbedding_shape_err f w r h

theorem angleEmbedding_too_many_features_witness :
    AngleEmbedding [1, 2, 3] [0, 1] (.str "X")
      = ([], some (.valueError
          "\x27features\x27 must be of shape (2,) or smaller; got (3,).")) :=
  angleEmbedding_too_many_features [1, 2, 3] [0, 1] (.str "X") (by decide)

/-- C3: `_get_sum_func` maps `"tf"` to tensorflow's `reduce_sum`, `"torch"`
to torch's `sum`, `"autograd"` and `"numpy"` to the autograd-aware numpy
sum, `None` to plain numpy sum, and fails on every other tag with
`ValueError "Unknown interface ..."`. -/
theorem get_sum_func_dispatch :
    _get_sum_func (.tag "tf") = .ok .tfReduceSum ∧
    _get_sum_func (.tag "torch") = .ok .torchSum ∧
    _get_sum_func (.tag "autograd") = .ok .autogradNpSum ∧
    _get_sum_func (.tag "numpy") = .ok .autogradNpSum ∧
    _get_sum_func .pyNone = .ok .npSum ∧
    ∀ s, s ∉ (["tf", "torch", "autograd", "numpy"] : List String) →
      _get_sum_func (.tag s) = .error (.valueError ("Unknown interface " ++ s)) := by
  refine ⟨rfl, rfl, rfl, rfl, rfl, ?_⟩
  intro s hs
  have h1 : s ≠ "tf" := fun h => hs (by simp [h])
  have h2 : s ≠ "torch" := fun h => hs (by simp [h])
  have h3 : s ≠ "autograd" := fun h => hs (by simp [h])
  have h4 : s ≠ "numpy" := fun h => hs (by simp [h])
  simp [_get_sum_func, h1, h2, h3, h4, Interface.toText]

theorem get_sum_func_dispatch_witness :
    _get_sum_func (.tag "qiskit")
      = .error (.valueError "Unknown interface qiskit") :=
  get_sum_func_dispatch.2.2.2.2.2 "qiskit" (by decide)

/-- C4: validation in `AngleEmbedding` is fail-fast and atomic: a failed
run queues no operation, the shape check fires first whatever the rotation
argument, a non-string rotation then fails the type check, and a string
rotation outside the options then fails the membership check. -/
theorem angleEmbedding_fail_fast :
    (∀ (f : List ℚ) (w : List ℕ) (r : RotArg) (e : Err),
      (AngleEmbedding f w r).2 = some e → (AngleEmbedding f w r).1 = []) ∧
    (∀ (f : List ℚ) (w : List ℕ) (r : RotArg), f.length > w.length →
      AngleEmbedding f w r
        = ([], some (.valueError ("\x27features\x27 must be of shape " ++
            shapeText w.length ++ " or smaller; got " ++
            shapeText f.length ++ ".")))) ∧
    (∀ (f : List ℚ) (w : List ℕ) (t : String), ¬ f.length > w.length →
      AngleEmbedding f w (.nonStr t)
        = ([], some (.typeError ("\x27rotation\x27 must be a string; got " ++ t)))) ∧
    (∀ (f : List ℚ) (w : List ℕ) (s : String), ¬ f.length > w.length →
      s ∉ (["X", "Y", "Z"] : List String) →
      AngleEmbedding f w (.str s)
        = ([], some (.valueError ("did not recognize option " ++ s ++
            " for \x27rotation\x27.")))) := by
  have hshape : ∀ (f : List ℚ) (w : List ℕ) (h : ¬ f.length > w.length),
      ¬ get_shape f > w.length := fun f w h => by simpa [get_shape] using h
  refine ⟨?_, fun f w r h => AngleEmbedding_shape_err f w r h, ?_, ?_⟩
  · intro f w r e he
    by_cases h : f.length > w.length
    · rw [AngleEmbedding_shape_err f w r h]
    · cases r with
      | nonStr t =>
          simp [AngleEmbedding, check_shape, check_type, hshape f w h]
      | str s =>
          by_cases hm : s ∈ (["X", "Y", "Z"] : List String)
          · have hg : ∃ g, axisGate s = some g := by
              rcases (by simpa using hm : s = "X" ∨ s = "Y" ∨ s = "Z") with
                hx | hx | hx <;> subst hx
              · exact ⟨.RX, rfl⟩
              · exact ⟨.RY, rfl⟩
              · exact ⟨.RZ, rfl⟩
            rcases hg with ⟨g, hg⟩
            rw [AngleEmbedding_ok hg (Nat.le_of_not_lt h)] at he
            simp at he
          · simp [AngleEmbedding, check_shape, check_type, check_is_in_options,
              hshape f w h, hm]
  · intro f w t h
    simp [AngleEmbedding, check_shape, check_type, RotArg.toText, hshape f w h]
  · intro f w s h hm
    simp [AngleEmbedding, check_shape, check_type, check_is_in_options,
      RotArg.toText, hshape f w h, hm]

theorem angleEmbedding_fail_fast_witness :
    AngleEmbedding [1] [0, 1] (.nonStr "3")
      = ([], some (.typeError "\x27rotation\x27 must be a string; got 3")) :=
  angleEmbedding_fail_fast.2.2.1 [1] [0, 1] "3" (by decide)

/-- C5: with the shape check satisfied, a non-string rotation argument
fails `AngleEmbedding` with a `TypeError` (even when its text is not an
option either, showing the type check runs first), and a string rotation
outside `{X, Y, Z}` fails with the InvalidOptionError `ValueError`. -/
theorem angleEmbedding_rotation_validation (f : List ℚ) (w : List ℕ)
    (hlen : f.length ≤ w.length) :
    (∀ t, AngleEmbedding f w (.nonStr t)
        = ([], some (.typeError ("\x27rotation\x27 must be a string; got " ++ t)))) ∧
    (∀ s, s ∉ (["X", "Y", "Z"] : List String) →
      AngleEmbedding f w (.str s)
        = ([], some (.valueError ("did not recognize option " ++ s ++
            " for \x27rotation\x27.")))) := by
  have h : ¬ get_shape f > w.length := by
    simpa [get_shape] using Nat.not_lt.mpr hlen
  constructor
  · intro t
    simp [AngleEmbedding, check_shape, check_type, RotArg.toText, h]
  · intro s hm
    simp [AngleEmbedding, check_shape, check_type, check_is_in_options,
      RotArg.toText, h, hm]

theorem angleEmbedding_rotation_validation_witness :
    AngleEmbedding [1] [0] (.str "A")
      = ([], some (.valueError "did not recognize option A for \x27rotation\x27.")) :=
  (angleEmbedding_rotation_validation [1] [0] (by decide)).2 "A" (by decide)

/-- C6: `sum` is strictly lazy and non-memoizing: constructing `sum x`
evaluates no computation unit (its construction trace is empty), and every
call of the returned function evaluates every unit of the collection, so
two calls evaluate every unit twice. -/
theorem sumColl_lazy_no_memo :
    (∀ x : QNodeCollection, (sumColl x).2 = []) ∧
    (∀ (x : QNodeCollection) (i : Interface) (fn : SumFn),
      x.interfaceAttr = some i → _get_sum_func i = .ok fn →
      (sumColl x).1 = .ok (apply fn x) ∧
      (apply fn x).2 = [] ∧
      (∀ params, ((apply fn x).1 params).2
          = (List.range x.qnodes.length).map (fun j => Event.evalUnit j params)) ∧
      (∀ p q, (((apply fn x).1 p).2 ++ ((apply fn x).1 q).2).length
          = 2 * x.qnodes.length)) := by
  constructor
  · intro x
    rcases x with ⟨attr, qs⟩
    cases attr with
    | none => rfl
    | some i =>
        cases hf : _get_sum_func i with
        | error e => simp [sumColl, hf]
        | ok fn => simp [sumColl, hf]
  · intro x i fn hi hf
    refine ⟨by simp [sumColl, hi, hf], rfl, fun params => rfl, ?_⟩
    intro p q
    simp [apply, QNodeCollection.evalAll, two_mul]

theorem sumColl_lazy_no_memo_witness :
    (sumColl sampleCollection).2 = [] ∧
    (sumColl sampleCollection).1 = .ok (apply .npSum sampleCollection) ∧
    ((apply SumFn.npSum sampleCollection).1 [2, 3]).2
      = [Event.evalUnit 0 [2, 3], Event.evalUnit 1 [2, 3]] :=
  ⟨sumColl_lazy_no_memo.1 sampleCollection,
   (sumColl_lazy_no_memo.2 sampleCollection .pyNone .npSum rfl rfl).1,
   (sumColl_lazy_no_memo.2 sampleCollection .pyNone .npSum rfl rfl).2.2.1 [2, 3]⟩

/-- C7: with as many features as wires and a valid axis, `AngleEmbedding`
queues exactly one rotation of the selected family per wire, angles equal
to the features in order; and on `features = [0.1, 0.2]`,
`wires = [0, 1, 2]`, `rotation = "Y"` it queues `RY(0.1)` on wire `0`,
`RY(0.2)` on wire `1` and nothing on wire `2`. -/
theorem angleEmbedding_equal_length :
    (∀ (f : List ℚ) (w : List ℕ) (s : String) (g : Rot),
      axisGate s = some g → f.length = w.length →
      AngleEmbedding f w (.str s)
        = (List.zipWith (fun x wi => Op.mk g x wi) f w, none) ∧
      (AngleEmbedding f w (.str s)).1.length = w.length) ∧
    AngleEmbedding [1/10, 2/10] [0, 1, 2] (.str "Y")
      = ([Op.mk .RY (1/10) 0, Op.mk .RY (2/10) 1], none) := by
  constructor
  · intro f w s g hg hlen
    have heq := AngleEmbedding_ok hg (le_of_eq hlen)
    exact ⟨heq, by rw [heq]; simp [hlen]⟩
  · rfl

theorem angleEmbedding_equal_length_witness :
    AngleEmbedding [3] [5] (.str "Z") = ([Op.mk .RZ 3 5], none) :=
  (angleEmbedding_equal_length.1 [3] [5] "Z" .RZ rfl rfl).1

/-- C8: the handler wrapped around the broadcast call in
`_broadcast_no_shape_check` swallows exactly the `ValueError`s whose
message contains `"must contain entries for {len(wires)} unitaries"`; a
`ValueError` with any other message, and an exception of any other type,
propagate unchanged, with the queued operations untouched either way. -/
theorem handle_broadcast_error_spec (w : List ℕ) (ops : List Op) :
    handle_broadcast_error w (ops, none) = (ops, none) ∧
    (∀ e, strContains ("must contain entries for " ++ toString w.length ++
        " unitaries") e = true →
      handle_broadcast_error w (ops, some (.valueError e)) = (ops, none)) ∧
    (∀ e, strContains ("must contain entries for " ++ toString w.length ++
        " unitaries") e = false →
      handle_broadcast_error w (ops, some (.valueError e))
        = (ops, some (.valueError e))) ∧
    (∀ e, handle_broadcast_error w (ops, some (.typeError e))
        = (ops, some (.typeError e))) ∧
    (∀ e, handle_broadcast_error w (ops, some (.attributeError e))
        = (ops, some (.attributeError e))) ∧
    (∀ e, handle_broadcast_error w (ops, some (.otherError e))
        = (ops, some (.otherError e))) := by
  refine ⟨rfl, ?_, ?_, fun e => rfl, fun e => rfl, fun e => rfl⟩
  · intro e he
    simp [handle_broadcast_error, he]
  · intro e he
    simp [handle_broadcast_error, he]

theorem handle_broadcast_error_spec_witness :
    handle_broadcast_error [0, 1, 2] ([], some (.valueError
      "\x27parameters\x27 must contain entries for 3 unitaries; got 2 entries"))
      = ([], none) ∧
    handle_broadcast_error [0, 1, 2] ([], some (.typeError "boom"))
      = ([], some (.typeError "boom")) :=
  ⟨(handle_broadcast_error_spec [0, 1, 2] []).2.1 _ (by rfl),
   (handle_broadcast_error_spec [0, 1, 2] []).2.2.2.1 "boom"⟩

/-- C9: on a collection object with no `interface` attribute at all, `sum`
raises `AttributeError` through its direct `x.interface` access instead of
falling back to the default `None` computed by the preceding `getattr`
line — even though that default would have resolved to the plain numpy
reducer. -/
theorem sumColl_missing_interface :
    (∀ x : QNodeCollection, x.interfaceAttr = none →
      (sumColl x).1 = .error (.attributeError
        "\x27QNodeCollection\x27 object has no attribute \x27interface\x27")) ∧
    _get_sum_func ((none : Option Interface).getD .pyNone) = .ok .npSum :=
  ⟨fun x hx => by simp [sumColl, hx], rfl⟩

theorem sumColl_missing_interface_witness :
    (sumColl ⟨none, []⟩).1 = .error (.attributeError
      "\x27QNodeCollection\x27 object has no attribute \x27interface\x27") :=
  sumColl_missing_interface.1 ⟨none, []⟩ rfl

/-- C10: calling `AngleEmbedding` with the rotation argument left at its
default is the same as passing `"X"`, and all the operations it queues are
`RX` rotations. -/
theorem angleEmbedding_default_rotation :
    ∀ (f : List ℚ) (w : List ℕ),
      AngleEmbeddingDefault f w = AngleEmbedding f w (.str "X") ∧
      ∀ op ∈ (AngleEmbeddingDefault f w).1, op.gate = .RX := by
  intro f w
  refine ⟨rfl, ?_⟩
  intro op hop
  by_cases h : f.length > w.length
  · rw [AngleEmbeddingDefault, AngleEmbedding_shape_err f w _ h] at hop
    simp at hop
  · have heq := AngleEmbedding_ok (f := f) (w := w) (s := "X") (g := .RX)
      rfl (Nat.le_of_not_lt h)
    rw [AngleEmbeddingDefault, heq] at hop
    exact gate_of_mem_zipWith hop

theorem angleEmbedding_default_rotation_witness :
    (Op.mk .RX 1 0).gate = .RX :=
  (angleEmbedding_default_rotation [1, 2] [0, 1]).2 (Op.mk .RX 1 0)
    (by simp [AngleEmbeddingDefault, AngleEmbedding, check_shape, check_type,
      check_is_in_options, broadcast_no_shape_check_eq, get_shape])

end Pennylane
